import Mathlib

/-!
Shallow embedding of the rvim editing engine (`src/rvim/mod.rs`).

The editor state is four fields (`data`, `lines`, `cursor`, `view_row`), the
operations are translated line by line from the Rust `impl Editor`.  Machine
integers (`usize`) are modelled as `Nat`; every operation that can panic in
Rust — `Vec::insert`/`Vec::remove`/slice indexing out of bounds, unsigned
subtraction overflow (debug profile), a failed `assert!` — is modelled as an
`Option` returning `none` at exactly the inputs where the Rust code panics.
-/

/-- Rust `struct Line { begin, end }`: one line's span of buffer indices. -/
structure Line where
  «begin» : Nat
  «end» : Nat
deriving DecidableEq, Repr

/-- Rust `Line::new`. -/
def Line.new (b e : Nat) : Line := ⟨b, e⟩

/-- Rust `struct Editor`: character buffer, line index, absolute cursor, and
first visible line (`view_row`). -/
structure Editor where
  data : List Char
  lines : List Line
  cursor : Nat
  view_row : Nat
deriving DecidableEq, Repr

namespace Editor

/-- Rust `Editor::reset`: clears `data` and `lines` and zeroes the cursor.
`view_row` is not touched by the source. -/
def reset (e : Editor) : Editor :=
  { e with data := [], lines := [], cursor := 0 }

/-- Rust `Editor::init`: `reset` followed by pushing each char of `content`
onto `data` in order. -/
def init (e : Editor) (content : String) : Editor :=
  content.data.foldl (fun e c => { e with data := e.data ++ [c] }) e.reset

/-- The loop body of `Editor::recompute_size`: walk the buffer with running
line start `b` and current index `i`; at each `'\n'` emit the span
`(b, i)` and restart at `i + 1`; after the loop emit the final span
`(b, data.len())`.  Called as `scanLines data 0 0`. -/
def scanLines : List Char → Nat → Nat → List Line
  | [], b, i => [Line.new b i]
  | c :: rest, b, i =>
      if c = '\n' then Line.new b i :: scanLines rest (i + 1) (i + 1)
      else scanLines rest b (i + 1)

/-- Number of `'\n'` characters in a buffer. -/
def countNewlines : List Char → Nat
  | [] => 0
  | c :: cs => (if c = '\n' then 1 else 0) + countNewlines cs

/-- Checks that a span list is a contiguous chain from `b` to `stop`:
the first span begins at `b`, each span satisfies `begin ≤ end`, each
subsequent span begins one past its predecessor's end, and the last span
ends at `stop`. -/
def linesChain (b : Nat) : List Line → Nat → Bool
  | [], _ => false
  | [l], stop => l.«begin» == b && decide (b ≤ l.«end») && l.«end» == stop
  | l :: ls, stop => l.«begin» == b && decide (b ≤ l.«end») && linesChain (l.«end» + 1) ls stop

/-- Rust `Editor::recompute_size`: pushes the freshly scanned spans onto
`self.lines`.  The source never clears `self.lines` first, so the new spans
are appended after whatever was already there. -/
def recompute_size (e : Editor) : Editor :=
  { e with lines := e.lines ++ scanLines e.data 0 0 }

/-- Rust `Editor::insert_char`: `Vec::insert` at `cursor` (panics if
`cursor > len`), `cursor += 1`, then `recompute_size`. -/
def insert_char (e : Editor) (c : Char) : Option Editor :=
  if e.cursor ≤ e.data.length then
    some (recompute_size
      { e with data := e.data.insertIdx e.cursor c, cursor := e.cursor + 1 })
  else none

/-- Rust `Editor::remove_char`: if `cursor > 0`, `Vec::remove` at `cursor`
(panics if `cursor ≥ len`), `cursor -= 1`, then `recompute_size`;
otherwise nothing happens. -/
def remove_char (e : Editor) : Option Editor :=
  if e.cursor > 0 then
    if e.cursor < e.data.length then
      some (recompute_size
        { e with data := e.data.eraseIdx e.cursor, cursor := e.cursor - 1 })
    else none
  else some e

/-- The scan loop of `Editor::current_line`: first index `i` whose span
satisfies `begin ≤ cursor ≤ end`, and the fallback `0` after the loop. -/
def findLine : List Line → Nat → Nat → Nat
  | [], _, _ => 0
  | l :: rest, cur, i =>
      if l.«begin» ≤ cur ∧ cur ≤ l.«end» then i else findLine rest cur (i + 1)

/-- Rust `Editor::current_line`: `assert!(cursor <= data.len() - 1)` — on an
empty buffer `data.len() - 1` overflows (`none`), and the assert fails
(`none`) whenever `cursor ≥ len`; otherwise the linear scan of `lines`. -/
def current_line (e : Editor) : Option Nat :=
  if e.data.length = 0 then none
  else if e.cursor ≤ e.data.length - 1 then some (findLine e.lines e.cursor 0)
  else none

/-- The `'a'` arm of `start_interactive`: move left, clamped at 0. -/
def move_left (e : Editor) : Editor :=
  if e.cursor > 0 then { e with cursor := e.cursor - 1 } else e

/-- The `'d'` arm of `start_interactive`: `if cursor < data.len() - 1`
then `cursor += 1`.  On an empty buffer `data.len() - 1` overflows. -/
def move_right (e : Editor) : Option Editor :=
  if e.data.length = 0 then none
  else if e.cursor < e.data.length - 1 then some { e with cursor := e.cursor + 1 }
  else some e

/-- The `'s'` arm of `start_interactive`: `line = current_line()`,
`column = cursor - lines[line].begin`; if `line < lines.len() - 1`, set
`cursor = lines[line + 1].begin + column` clamped to `lines[line + 1].end`. -/
def move_down (e : Editor) : Option Editor := do
  let line ← e.current_line
  let span ← e.lines.get? line
  if span.«begin» ≤ e.cursor then
    let column := e.cursor - span.«begin»
    if line < e.lines.length - 1 then
      let span1 ← e.lines.get? (line + 1)
      let c := span1.«begin» + column
      some { e with cursor := if span1.«end» < c then span1.«end» else c }
    else
      some e
  else none

/-- The `'w'` arm of `start_interactive`: `line = current_line()`,
`column = cursor - lines[line].begin`; if `line > 0` the source sets
`cursor = lines[line + 1].begin + column` clamped to `lines[line + 1].end` —
it indexes `line + 1`, exactly as written in the source. -/
def move_up (e : Editor) : Option Editor := do
  let line ← e.current_line
  let span ← e.lines.get? line
  if span.«begin» ≤ e.cursor then
    let column := e.cursor - span.«begin»
    if 0 < line then
      let span1 ← e.lines.get? (line + 1)
      let c := span1.«begin» + column
      some { e with cursor := if span1.«end» < c then span1.«end» else c }
    else
      some e
  else none

/-- The state-mutating prefix of `Editor::rerender`: compute
`cursor_column = current_line()` (the cursor's line) and
`cursor_row = cursor - lines[cursor_column].begin` (the cursor's column);
if `cursor_column < view_row` set `view_row = cursor_row`; then if
`cursor_column ≥ view_row + height` (reading the updated `view_row`) set
`view_row = cursor_column - height + 1`.  The drawing that follows does not
change editor state. -/
def scroll_step (e : Editor) (height : Nat) : Option Editor := do
  let cursor_column ← e.current_line
  let span ← e.lines.get? cursor_column
  if span.«begin» ≤ e.cursor then
    let cursor_row := e.cursor - span.«begin»
    let v1 := if cursor_column < e.view_row then cursor_row else e.view_row
    let v2 := if v1 + height ≤ cursor_column then cursor_column - height + 1 else v1
    some { e with view_row := v2 }
  else none

/-- Rust `Editor::save_to_file`: takes `&self`, writes every char of `data` in
order to the file, and returns.  The first component is the editor state
after the call (no field of `self` is assigned — the receiver is an
immutable borrow), the second is the text written to the file. -/
def save_to_file (e : Editor) : Editor × String :=
  (e, e.data.foldl (fun s c => s.push c) "")

end Editor

/-!
Supporting lemmas: one full scan of the buffer (the loop body of
`recompute_size`) produces a contiguous chain of spans from `0` to `len`
with `countNewlines + 1` entries — i.e. a partition of `[0, len]`.  The
line-index invariant of the spec therefore describes exactly the spans
`recompute_size` pushes; what the source does with them is to append them
after the spans already in `self.lines`.
-/

lemma scanLines_ne_nil (data : List Char) :
    ∀ b i : Nat, Editor.scanLines data b i ≠ [] := by
  induction data with
  | nil => intro b i; simp [Editor.scanLines]
  | cons c cs ih =>
      intro b i
      by_cases h : c = '\n'
      · simp [Editor.scanLines, h]
      · simpa [Editor.scanLines, h] using ih b (i + 1)

lemma scanLines_length (data : List Char) :
    ∀ b i : Nat,
      (Editor.scanLines data b i).length = Editor.countNewlines data + 1 := by
  induction data with
  | nil => intro b i; simp [Editor.scanLines, Editor.countNewlines]
  | cons c cs ih =>
      intro b i
      by_cases h : c = '\n'
      · simp [Editor.scanLines, Editor.countNewlines, h, ih]
        omega
      · simp [Editor.scanLines, Editor.countNewlines, h, ih]

lemma scanLines_chain (data : List Char) :
    ∀ b i : Nat, b ≤ i →
      Editor.linesChain b (Editor.scanLines data b i) (i + data.length) = true := by
  induction data with
  | nil =>
      intro b i hbi
      simp [Editor.scanLines, Editor.linesChain, Line.new, hbi]
  | cons c cs ih =>
      intro b i hbi
      have hstop : i + (c :: cs).length = i + 1 + cs.length := by
        rw [List.length_cons]; omega
      rw [hstop]
      by_cases h : c = '\n'
      · have hne := scanLines_ne_nil cs (i + 1) (i + 1)
        cases hsc : Editor.scanLines cs (i + 1) (i + 1) with
        | nil => exact absurd hsc hne
        | cons x xs =>
            have hchain := ih (i + 1) (i + 1) (Nat.le_refl _)
            rw [hsc] at hchain
            simp [Editor.scanLines, h, hsc, Editor.linesChain, Line.new,
              hchain, hbi]
      · have hchain := ih b (i + 1) (Nat.le_succ_of_le hbi)
        simp [Editor.scanLines, h, hchain]

lemma data_foldl_push (l : List Char) :
    ∀ s : String, (l.foldl (fun s c => s.push c) s).data = s.data ++ l := by
  induction l with
  | nil => intro s; simp
  | cons c cs ih => intro s; simp [List.foldl_cons, ih, String.data_push]

lemma foldl_push_data (cs : List Char) :
    ∀ e : Editor,
      cs.foldl (fun e c => { e with data := e.data ++ [c] }) e
        = { e with data := e.data ++ cs } := by
  induction cs with
  | nil => intro e; simp
  | cons c cs ih => intro e; simp [List.foldl_cons, ih]

/-- C1: the claim says the line index is recomputed in full after every
mutation so that the spans always partition `[0, len]` with
`#spans = #newlines + 1`.  The code violates this: `recompute_size` never
clears `self.lines`, so each call appends a second full set of spans.
Starting from the empty editor, after the initial `recompute_size` of
`start_interactive` and one `insert_char 'x'` (one mutation), `lines` is
`[(0,0), (0,1)]` — two spans for a buffer with zero newlines, and both
spans contain index 0, so they neither partition `[0, 1]` nor number
`#newlines + 1`. -/
theorem C1_recompute_size_appends_instead_of_rebuilding :
    Editor.insert_char (Editor.recompute_size ⟨[], [], 0, 0⟩) 'x'
      = some ⟨['x'], [Line.new 0 0, Line.new 0 1], 1, 0⟩ ∧
    (Editor.insert_char (Editor.recompute_size ⟨[], [], 0, 0⟩) 'x').map
        (fun e => e.lines.length == Editor.countNewlines e.data + 1)
      = some false := by
  constructor
  · rfl
  · rfl

/-- C2: the claim says Backspace with `cursor > 0` removes the character at
index `cursor - 1` and decrements the cursor.  The code's `remove_char`
instead calls `Vec::remove(self.cursor)`: at `cursor = len` (buffer `"a"`,
cursor 1 — the state right after typing at the end of the buffer) the
removal index is out of bounds and the program panics, and on buffer
`"ab"` with cursor 1 it removes `'b'` (the character at `cursor`), leaving
`['a']` where the claim requires `['b']`. -/
theorem C2_backspace_removes_at_cursor_not_before :
    Editor.remove_char ⟨['a'], [Line.new 0 1], 1, 0⟩ = none ∧
    Editor.remove_char ⟨['a', 'b'], [Line.new 0 2], 1, 0⟩
      = some ⟨['a'], [Line.new 0 2, Line.new 0 1], 0, 0⟩ ∧
    (['a'] : List Char) ≠ ['a', 'b'].eraseIdx 0 := by
  refine ⟨rfl, rfl, ?_⟩
  decide

/-- C3: the claim says insert-then-remove at the same position restores the
buffer and cursor exactly.  On buffer `"ab"` with cursor 0, inserting `'x'`
and then removing (`remove_char`) yields buffer `['x', 'b']`, not
`['a', 'b']` — `remove_char` deletes the character after the cursor, not
the one just inserted.  And with cursor at the end of buffer `"a"`,
inserting `'x'` and then removing panics (`Vec::remove` at index 2 of a
2-element buffer). -/
theorem C3_insert_then_remove_does_not_restore :
    (Editor.insert_char ⟨['a', 'b'], [Line.new 0 2], 0, 0⟩ 'x').bind
        Editor.remove_char
      = some ⟨['x', 'b'], [Line.new 0 2, Line.new 0 3, Line.new 0 2], 0, 0⟩ ∧
    (['x', 'b'] : List Char) ≠ ['a', 'b'] ∧
    (Editor.insert_char ⟨['a'], [Line.new 0 1], 1, 0⟩ 'x').bind
        Editor.remove_char
      = none := by
  refine ⟨rfl, ?_, rfl⟩
  decide

/-- C4 counterexample: the claim says Move right sets the cursor to
`cursor + 1` exactly when `cursor < len`.  On buffer `"a"` with cursor 0
we have `cursor < len` (`0 < 1`), yet the code's guard
`cursor < data.len() - 1` (`0 < 0`) fails and the cursor stays at 0. -/
theorem C4_counterexample_move_right_stops_before_end :
    Editor.move_right ⟨['a'], [Line.new 0 1], 0, 0⟩
      = some ⟨['a'], [Line.new 0 1], 0, 0⟩ ∧
    Editor.move_right ⟨['a'], [Line.new 0 1], 0, 0⟩
      ≠ some ⟨['a'], [Line.new 0 1], 1, 0⟩ ∧
    (0 : Nat) < (['a'] : List Char).length := by
  refine ⟨rfl, ?_, ?_⟩ <;> decide

/-- C4 amended: on a nonempty buffer, Move right sets the cursor to
`cursor + 1` exactly when `cursor + 1 < len` (the guard is
`cursor < len - 1`), and is a no-op when `cursor + 1 ≥ len` — in
particular at `cursor = len - 1` and at `cursor = len`; on the empty
buffer the guard's `data.len() - 1` underflows and the program panics. -/
theorem C4_move_right_clamps_at_len_minus_one (e : Editor) :
    Editor.move_right e =
      if e.data.length = 0 then none
      else if e.cursor + 1 < e.data.length then
        some { e with cursor := e.cursor + 1 }
      else some e := by
  unfold Editor.move_right
  by_cases h : e.data.length = 0
  · simp [h]
  · rw [if_neg h, if_neg h]
    exact if_congr (by omega) rfl rfl

/-- C5: the claim says Move up targets line `line - 1` (and is a no-op on
line 0).  The `'w'` arm of the source indexes `lines[line + 1]` instead:
on buffer `"a\nb\nc"` with the cursor at index 2 (line 1, column 0),
pressing `'w'` sets the cursor to 4 — the start of line 2, i.e. it moves
*down* — where the claim requires cursor 0 (line 0, column 0); and on
buffer `"a\nb"` with the cursor at index 2 (line 1, the last line),
`lines[2]` is out of bounds and the program panics. -/
theorem C5_move_up_targets_next_line :
    Editor.move_up
        ⟨['a', '\n', 'b', '\n', 'c'],
         [Line.new 0 1, Line.new 2 3, Line.new 4 5], 2, 0⟩
      = some ⟨['a', '\n', 'b', '\n', 'c'],
          [Line.new 0 1, Line.new 2 3, Line.new 4 5], 4, 0⟩ ∧
    (4 : Nat) ≠ 0 ∧
    Editor.move_up ⟨['a', '\n', 'b'], [Line.new 0 1, Line.new 2 3], 2, 0⟩
      = none := by
  refine ⟨rfl, ?_, rfl⟩
  decide

/-- C6: the claim says `line_of` (the source's `current_line`) succeeds for
every `0 ≤ cursor ≤ len` on a rebuilt line index.  On buffer `"a"` with its
rebuilt index `[(0, 1)]` and cursor 1 (`cursor = len`, a position reached
after typing at the end of the buffer), the span `(0, 1)` contains the
cursor — the claim requires the answer 0 — but the source's
`assert!(cursor <= data.len() - 1)` is `1 ≤ 0` and fails, so the program
panics instead of returning. -/
theorem C6_current_line_assert_fails_at_len :
    Editor.current_line ⟨['a'], [Line.new 0 1], 1, 0⟩ = none ∧
    (Line.new 0 1).«begin» ≤ 1 ∧ 1 ≤ (Line.new 0 1).«end» ∧
    (1 : Nat) ≤ (['a'] : List Char).length := by
  refine ⟨rfl, ?_, ?_, ?_⟩ <;> decide

/-- Closed form of `Editor.init`: the buffer becomes the char sequence of
`content`, `lines` is cleared and left empty, the cursor is zeroed, and
`view_row` keeps its prior value. -/
lemma init_eq (e : Editor) (content : String) :
    Editor.init e content = ⟨content.data, [], 0, e.view_row⟩ := by
  unfold Editor.init Editor.reset
  rw [foldl_push_data]
  simp

/-- C7: `save_to_file` writes exactly the chars of `data`, in order, with no
normalization (the written text's char sequence is `e.data`), so reloading
the written text and calling `init` reproduces the original in-memory
character sequence exactly. -/
theorem C7_save_then_init_roundtrip (e e' : Editor) :
    ((Editor.save_to_file e).2).data = e.data ∧
    Editor.init e' (Editor.save_to_file e).2 = ⟨e.data, [], 0, e'.view_row⟩ := by
  have hs : ((Editor.save_to_file e).2).data = e.data := by
    simpa [Editor.save_to_file] using data_foldl_push e.data ""
  refine ⟨hs, ?_⟩
  rw [init_eq, hs]

/-- C8: the claim says that when `line_of(cursor) < top_line` the scroll
step sets `top_line = line_of(cursor)`, so the cursor's line ends up inside
the window.  The source assigns `cursor_row` — the cursor's *column* — to
`view_row` in that branch: on buffer `"abcdef\nG"` with the cursor at
index 5 (line 0, column 5) and `view_row = 3`, the scroll step of
`rerender` (height 2) sets `view_row` to 5, not to the cursor's line 0,
and line 0 is not within the window `[5, 6]`. -/
theorem C8_scroll_up_sets_top_line_to_column :
    Editor.scroll_step
        ⟨['a', 'b', 'c', 'd', 'e', 'f', '\n', 'G'],
         [Line.new 0 6, Line.new 7 8], 5, 3⟩ 2
      = some ⟨['a', 'b', 'c', 'd', 'e', 'f', '\n', 'G'],
          [Line.new 0 6, Line.new 7 8], 5, 5⟩ ∧
    Editor.current_line
        ⟨['a', 'b', 'c', 'd', 'e', 'f', '\n', 'G'],
         [Line.new 0 6, Line.new 7 8], 5, 3⟩
      = some 0 ∧
    ¬ ((5 : Nat) ≤ 0) := by
  refine ⟨rfl, rfl, ?_⟩
  decide

/-- C9: `save_to_file` takes `&self` and assigns no field: the editor state
after the call — buffer, line index, cursor and `view_row` — is exactly the
state before it, whether or not the write succeeds. -/
theorem C9_save_to_file_leaves_state_unchanged (e : Editor) :
    (Editor.save_to_file e).1 = e := rfl

/-- C10: `init` leaves the buffer equal to the char sequence (Unicode
scalar values) of `content`, zeroes the cursor, clears the line index
without rebuilding it, and leaves `view_row` unchanged. -/
theorem C10_init_loads_content_clears_index (e : Editor) (content : String) :
    Editor.init e content = ⟨content.data, [], 0, e.view_row⟩ :=
  init_eq e content
